/-
  Verification of the DineBook booking backend (dinebook-backend).

  Shallow embedding of the Express/Mongoose controllers:
  * the MongoDB collections become Lean lists of records,
  * each HTTP handler becomes a pure function from the relevant state
    to a response value (plus the updated state where the handler writes),
  * the NodeCache instances become association lists keyed by strings,
  * machine numbers that matter (guest counts, capacities) are Nat/Int,
    geospatial distances are Rat.

  The helper module `utils/booking-helpers` (TimeHelper, BookingValidators,
  BookingDatabase, BookingInputValidator, ResponseHelper) and
  `utils/email` are not part of the provided sources; definitions taken
  from them are modelled from the specification and are marked
  `Modelled from the spec:` in their doc comments.
-/
import Mathlib

namespace DineBook

/-! ## Basic formatting helpers (string interpolation used by the handlers) -/

/-- Two-digit zero padding, as produced by time formatting such as `19:00`. -/
def pad2 (n : Nat) : String :=
  if n < 10 then "0" ++ toString n else toString n

/-- Render a time-of-day, stored as minutes since midnight, as `HH:MM`. -/
def formatTime (t : Nat) : String :=
  pad2 (t / 60) ++ ":" ++ pad2 (t % 60)

/-! ## Calendar dates -/

/-- A calendar date `YYYY-MM-DD`.  The controllers treat the booking date as an
opaque key compared for equality; only the cancellation handler and the
weekday resolution interpret it. -/
structure CalDate where
  year : Nat
  month : Nat
  day : Nat
deriving DecidableEq, Repr

/-- Render a date as the `YYYY-MM-DD` string used in messages and cache keys. -/
def formatDate (d : CalDate) : String :=
  toString d.year ++ "-" ++ pad2 d.month ++ "-" ++ pad2 d.day

/-! ## Data model (Mongoose schemas) -/

/-- Booking status enumeration from the booking schema:
`confirmed | pending | cancelled | completed`. -/
inductive BookingStatus where
  | confirmed
  | pending
  | cancelled
  | completed
deriving DecidableEq, Repr

/-- A booking document.  Times of day are minutes since midnight (the code
stores `HH:MM` strings; the encoding is injective so equality of times
coincides). -/
structure Booking where
  id : Nat
  customerId : Nat
  restaurantId : Nat
  date : CalDate
  time : Nat
  guests : Nat
  specialRequests : Option String
  status : BookingStatus
deriving DecidableEq, Repr

/-- One weekday's `{ open, close }` pair from the restaurant schema's
`openingHours`, as minutes since midnight. -/
structure DayHours where
  openTime : Nat
  closeTime : Nat
deriving DecidableEq, Repr

/-- The weekly `openingHours` table: each weekday's pair is optional in the
schema. -/
structure WeeklyHours where
  monday : Option DayHours
  tuesday : Option DayHours
  wednesday : Option DayHours
  thursday : Option DayHours
  friday : Option DayHours
  saturday : Option DayHours
  sunday : Option DayHours
deriving DecidableEq, Repr

/-- A restaurant document (the fields the verified handlers read). -/
structure Restaurant where
  id : Nat
  name : String
  cuisine : String
  location : String
  priceRange : Nat
  capacity : Nat
  openingHours : WeeklyHours
  isActive : Bool
  ownerId : Nat
deriving DecidableEq, Repr

/-- A user document (only the fields the booking handlers read). -/
structure User where
  id : Nat
  email : String
  role : String
deriving DecidableEq, Repr

/-- A review document (only identity fields; review CRUD is out of the
verified claims except for retrievability). -/
structure Review where
  id : Nat
  customerId : Nat
  restaurantId : Nat
  rating : Nat
  comment : String
deriving DecidableEq, Repr

/-! ## Caches

The controllers keep `NodeCache` instances.  A cache is an association list
from string keys to stored values; `get` returns the most recent entry,
`set` replaces the entry for a key, `del` removes it.  Expiry (TTL) is not
modelled: a present entry stands for a not-yet-expired one. -/

def Cache (α : Type) : Type := List (String × α)

def Cache.empty {α : Type} : Cache α := []

def cacheGet {α : Type} (c : Cache α) (k : String) : Option α :=
  (List.find? (fun p => p.1 == k) c).map Prod.snd

def cacheSet {α : Type} (c : Cache α) (k : String) (v : α) : Cache α :=
  (k, v) :: List.filter (fun p => p.1 != k) c

def cacheDel {α : Type} (c : Cache α) (k : String) : Cache α :=
  List.filter (fun p => p.1 != k) c

/-! ## Time helpers

`utils/booking-helpers`'s `TimeHelper` is not among the provided sources. -/

/-- Modelled from the spec: `TimeHelper.getDayOfWeek` — "resolve weekday from
date".  Zeller's congruence for the Gregorian calendar, returning the JS
`Date.getDay` convention (0 = Sunday … 6 = Saturday). -/
def dayOfWeekNum (d : CalDate) : Nat :=
  let y := if d.month ≤ 2 then d.year - 1 else d.year
  let m := if d.month ≤ 2 then d.month + 12 else d.month
  let K := y % 100
  let J := y / 100
  let h := (d.day + (13 * (m + 1)) / 5 + K + K / 4 + J / 4 + 5 * J) % 7
  (h + 6) % 7

/-- The lowercase weekday names keying the `openingHours` table, indexed by
the JS `getDay` number (also used by the frontend's `formatOpeningHours`). -/
def weekdayNames : List String :=
  ["sunday", "monday", "tuesday", "wednesday", "thursday", "friday", "saturday"]

/-- Modelled from the spec: `TimeHelper.getDayOfWeek` resolves the weekday
name from the date. -/
def getDayOfWeek (d : CalDate) : String :=
  (weekdayNames.get? (dayOfWeekNum d)).getD "sunday"

/-- Modelled from the spec: `TimeHelper.getOpeningHours` — "look up that
weekday's open/close pair" in the restaurant's weekly table. -/
def getOpeningHours (r : Restaurant) (day : String) : Option DayHours :=
  if day == "monday" then r.openingHours.monday
  else if day == "tuesday" then r.openingHours.tuesday
  else if day == "wednesday" then r.openingHours.wednesday
  else if day == "thursday" then r.openingHours.thursday
  else if day == "friday" then r.openingHours.friday
  else if day == "saturday" then r.openingHours.saturday
  else if day == "sunday" then r.openingHours.sunday
  else none

/-- Modelled from the spec: `TimeHelper.isRestaurantClosed` — "if absent or
equal, restaurant is closed that day". -/
def isRestaurantClosed (oh : Option DayHours) : Bool :=
  match oh with
  | none => true
  | some h => h.openTime == h.closeTime

/-- Modelled from the spec: the slot interval is "an implementation
parameter, not specified further"; modelled as 60 minutes. -/
def slotInterval : Nat := 60

/-- Modelled from the spec: `TimeHelper.generateTimeSlots` — "generate a
fixed-interval sequence of time labels between open and close". -/
def generateTimeSlots (openM closeM : Nat) : List Nat :=
  (List.range ((closeM - openM + slotInterval - 1) / slotInterval)).map
    (fun k => openM + k * slotInterval)

/-- Modelled from the spec: `BookingValidators.isTimeWithinHours` —
"Validates that requested time falls within the resolved opening hours". -/
def isTimeWithinHours (t openM closeM : Nat) : Bool :=
  openM ≤ t && t < closeM

/-- An order-faithful timestamp for `new Date(date + "T" + time)` comparison
in the cancellation handler: lexicographic in (year, month, day, minute). -/
def absMinutes (d : CalDate) (t : Nat) : Nat :=
  ((d.year * 400 + d.month * 32 + d.day) * 1440) + t

/-! ## Guest tallies -/

/-- Whether a booking counts against capacity: status `confirmed` or
`pending` (the `$in` filter used by both availability and creation). -/
def countsAgainstCapacity (s : BookingStatus) : Bool :=
  s == .confirmed || s == .pending

/-- The bookings `Booking.find({ restaurantId, date, status: { $in:
['confirmed','pending'] } })` returns in `getAvailability`. -/
def activeBookingsOn (bookings : List Booking) (rid : Nat) (d : CalDate) :
    List Booking :=
  bookings.filter (fun b =>
    b.restaurantId == rid && b.date == d && countsAgainstCapacity b.status)

/-- The `bookingCounts` object built by `getAvailability`'s `forEach` loop:
`bookingCounts[booking.time] = (bookingCounts[booking.time] || 0) +
booking.guests`, embedded as a function-valued accumulator (a JS object
read with `|| 0`). -/
def bookingCounts (bs : List Booking) : Nat → Nat :=
  bs.foldl (fun acc b => fun t => if t == b.time then acc t + b.guests else acc t)
    (fun _ => 0)

/-- Whether a booking occupies exactly this restaurant, date and time with a
capacity-relevant status (the `$match` condition of the aggregation). -/
def matchesSlot (rid : Nat) (d : CalDate) (t : Nat) (b : Booking) : Bool :=
  b.restaurantId == rid && b.date == d && b.time == t &&
  countsAgainstCapacity b.status

/-- The specification's slot tally: the sum of guest counts of all
confirmed/pending bookings at exactly this restaurant, date and time. -/
def sumActiveGuests (bookings : List Booking) (rid : Nat) (d : CalDate)
    (t : Nat) : Nat :=
  ((bookings.filter (matchesSlot rid d t)).map Booking.guests).sum

/-! ## getAvailability -/

/-- One element of the `availableSlots` array. -/
structure Slot where
  time : Nat
  available : Bool
  availableCapacity : Int
  totalCapacity : Nat
deriving DecidableEq, Repr

/-- The JSON body `getAvailability` responds with (both the closed-day shape
with `message` and the open-day shape with hours and slots). -/
structure AvailabilityResponse where
  restaurantId : Nat
  date : CalDate
  dayOfWeek : String
  availableSlots : List Slot
  message : Option String
  openingHours : Option DayHours
  totalSlots : Nat
deriving DecidableEq, Repr

/-- `getAvailability` (booking controller): resolve the weekday, return the
closed-day shape when the day has no usable hours, otherwise generate the
time slots and report per-slot remaining capacity. -/
def getAvailability (r : Restaurant) (d : CalDate)
    (bookings : List Booking) : AvailabilityResponse :=
  let dayOfWeek := getDayOfWeek d
  let oh := getOpeningHours r dayOfWeek
  if isRestaurantClosed oh then
    { restaurantId := r.id
      date := d
      dayOfWeek := dayOfWeek
      availableSlots := []
      message := some ("Restaurant is closed on " ++ dayOfWeek)
      openingHours := none
      totalSlots := 0 }
  else
    let hours := oh.getD ⟨0, 0⟩
    let timeSlots := generateTimeSlots hours.openTime hours.closeTime
    let existing := activeBookingsOn bookings r.id d
    let counts := bookingCounts existing
    let availableSlots := timeSlots.map (fun t =>
      let bookedGuests := counts t
      let availableCapacity : Int := (r.capacity : Int) - (bookedGuests : Int)
      { time := t
        available := availableCapacity > 0
        availableCapacity := availableCapacity
        totalCapacity := r.capacity })
    { restaurantId := r.id
      date := d
      dayOfWeek := dayOfWeek
      availableSlots := availableSlots
      message := none
      openingHours := some hours
      totalSlots := timeSlots.length }

/-! ## Database helpers (`BookingDatabase`, not among the provided sources) -/

/-- Modelled from the spec: `BookingDatabase.findRestaurantById` looks the
restaurant up by id, raising `NotFoundError` (handled to a 404) when
absent. -/
def findRestaurantById (restaurants : List Restaurant) (rid : Nat) :
    Option Restaurant :=
  restaurants.find? (fun r => r.id == rid)

/-- Modelled from the spec: `BookingDatabase.findUserById`. -/
def findUserById (users : List User) (uid : Nat) : Option User :=
  users.find? (fun u => u.id == uid)

/-- Modelled from the spec: `BookingDatabase.findUserBookingById` — booking
retrieval and cancellation are "allowed only by the owning customer", so the
lookup matches both the booking id and the requesting customer's id. -/
def findUserBookingById (bookings : List Booking) (bid cid : Nat) :
    Option Booking :=
  bookings.find? (fun b => b.id == bid && b.customerId == cid)

/-! ## createBooking -/

/-- The booking-creation request body. -/
structure CreateBookingRequest where
  restaurantId : Nat
  date : CalDate
  time : Nat
  guests : Nat
  specialRequests : Option String
deriving DecidableEq, Repr

/-- Modelled from the spec: `BookingInputValidator.validateCreateBookingInput`
checks for malformed input; the typed request makes missing fields
unrepresentable, leaving the guest count's positivity. -/
def validateCreateBookingInput (req : CreateBookingRequest) : Option String :=
  if req.guests == 0 then some "Number of guests must be at least 1" else none

/-- The aggregation pipeline in `createBooking` (`$match` on restaurantId,
date, time and confirmed/pending status, then `$group` with
`$sum: '$guests'`): the committed guest total for the exact slot. -/
def aggregateBookedGuests (bookings : List Booking) (rid : Nat) (d : CalDate)
    (t : Nat) : Nat :=
  ((bookings.filter (matchesSlot rid d t)).map Booking.guests).sum

/-- The booking document `createBooking` constructs: note the hard-coded
`status: 'confirmed'`. -/
def mkBookingDoc (customerId : Nat) (req : CreateBookingRequest)
    (newId : Nat) : Booking :=
  { id := newId
    customerId := customerId
    restaurantId := req.restaurantId
    date := req.date
    time := req.time
    guests := req.guests
    specialRequests := req.specialRequests
    status := .confirmed }

/-- `booking.save({ session })`: the insert the transaction commits. -/
def insertBooking (bookings : List Booking) (b : Booking) : List Booking :=
  bookings ++ [b]

/-- Modelled from the spec: `utils/email`'s `sendBookingConfirmationEmail`,
which can fail; `emailOk` is the oracle for whether delivery succeeds. -/
def sendBookingConfirmationEmail (emailOk : Bool) : Except String Unit :=
  if emailOk then .ok () else .error "email failure"

/-- `sendConfirmationEmail` (booking controller): wraps the email util in a
`try`/`catch` whose handler only logs, so the call never propagates a
failure to its caller. -/
def sendConfirmationEmail (emailOk : Bool) : Unit :=
  match sendBookingConfirmationEmail emailOk with
  | .ok _ => ()
  | .error _ => ()

/-- The transaction block of `createBooking`: the save and commit (whether
the database transaction succeeds is the `txOk` oracle; on failure it is
aborted, leaving the collection unchanged), followed by the best-effort
confirmation email, whose `Unit` return cannot fail the block. -/
def txBlock (txOk emailOk : Bool) (bookings : List Booking) (b : Booking) :
    Except String (List Booking) :=
  if txOk then
    let _ := sendConfirmationEmail emailOk
    .ok (insertBooking bookings b)
  else
    .error "transaction error"

/-- The response of `createBooking`, tagged by the `ResponseHelper` branch
that produced it (validation → 400, not-found → 404, conflict → 409,
server error → 500, created → 201). -/
inductive CreateBookingResponse where
  | created (b : Booking)
  | validationError (msg : String)
  | notFoundError (msg : String)
  | conflictError (msg : String)
  | serverError (msg : String)
deriving DecidableEq, Repr

/-- Whether a `createBooking` response is the 201 created form. -/
def isCreatedResponse : CreateBookingResponse → Bool
  | .created _ => true
  | _ => false

/-- Everything observable about one `createBooking` call: the HTTP response,
the booking collection afterwards, whether the confirmation email was
attempted, and which cache keys were invalidated. -/
structure CreateBookingOutcome where
  response : CreateBookingResponse
  bookings : List Booking
  emailAttempted : Bool
  deletedKeys : List String
deriving DecidableEq, Repr

/-- `createBooking` (booking controller): validate, resolve restaurant and
user, check opening hours, run the aggregate capacity check, then insert the
booking inside the transaction, send the best-effort email, respond 201 and
invalidate the user-bookings and availability cache entries. -/
def createBooking (restaurants : List Restaurant) (users : List User)
    (customerId : Nat) (req : CreateBookingRequest) (bookings : List Booking)
    (newId : Nat) (txOk emailOk : Bool) : CreateBookingOutcome :=
  let fail : CreateBookingResponse → CreateBookingOutcome := fun resp =>
    { response := resp, bookings := bookings, emailAttempted := false,
      deletedKeys := [] }
  match validateCreateBookingInput req with
  | some msg => fail (.validationError msg)
  | none =>
  match findRestaurantById restaurants req.restaurantId with
  | none => fail (.notFoundError "Restaurant not found")
  | some r =>
  match findUserById users customerId with
  | none => fail (.notFoundError "User not found")
  | some _user =>
  let dayOfWeek := getDayOfWeek req.date
  let oh := getOpeningHours r dayOfWeek
  if isRestaurantClosed oh then
    fail (.validationError ("Restaurant is closed on " ++ dayOfWeek))
  else
  let hours := oh.getD ⟨0, 0⟩
  if !isTimeWithinHours req.time hours.openTime hours.closeTime then
    fail (.validationError ("Restaurant is closed at " ++ formatTime req.time ++
      ". Hours: " ++ formatTime hours.openTime ++ " - " ++
      formatTime hours.closeTime))
  else
  let bookedGuests := aggregateBookedGuests bookings req.restaurantId req.date
    req.time
  let availableCapacity : Int := (r.capacity : Int) - (bookedGuests : Int)
  if (req.guests : Int) > availableCapacity then
    if availableCapacity ≤ 0 then
      fail (.conflictError ("No tables available at " ++ formatTime req.time ++
        " on " ++ formatDate req.date))
    else
      fail (.conflictError ("Only " ++ toString availableCapacity ++
        " seats available at " ++ formatTime req.time ++ " on " ++
        formatDate req.date))
  else
  let newBooking := mkBookingDoc customerId req newId
  match txBlock txOk emailOk bookings newBooking with
  | .error _ =>
    { response := .serverError "An unexpected error occurred"
      bookings := bookings
      emailAttempted := false
      deletedKeys := [] }
  | .ok newBookings =>
    { response := .created newBooking
      bookings := newBookings
      emailAttempted := true
      deletedKeys := ["user-bookings-" ++ toString customerId ++ "-all--",
                      "availability-" ++ toString req.restaurantId ++ "-" ++
                        formatDate req.date] }

/-! ## The two phases of createBooking under concurrency

The aggregate capacity check runs before `mongoose.startSession()`; only the
`save` sits inside the transaction.  An interleaving of two requests can
therefore run both checks against the same pre-state before either insert. -/

/-- The capacity check of `createBooking` in isolation: the request passes
when its guests do not exceed `capacity - aggregateBookedGuests`. -/
def capacityCheckPasses (r : Restaurant) (bookings : List Booking)
    (req : CreateBookingRequest) : Bool :=
  let bookedGuests := aggregateBookedGuests bookings req.restaurantId req.date
    req.time
  !((req.guests : Int) > (r.capacity : Int) - (bookedGuests : Int) : Bool)

/-- Two booking requests whose capacity checks both execute before either
insert commits — an interleaving the handler admits because the check
precedes the transaction. -/
def interleavedRun (r : Restaurant) (cid1 cid2 : Nat)
    (req1 req2 : CreateBookingRequest) (bookings : List Booking)
    (id1 id2 : Nat) : Bool × Bool × List Booking :=
  let ok1 := capacityCheckPasses r bookings req1
  let ok2 := capacityCheckPasses r bookings req2
  let s1 := if ok1 then insertBooking bookings (mkBookingDoc cid1 req1 id1)
            else bookings
  let s2 := if ok2 then insertBooking s1 (mkBookingDoc cid2 req2 id2) else s1
  (ok1, ok2, s2)

/-- The capacity invariant: at every slot of this restaurant, the committed
(confirmed/pending) guest total stays within capacity. -/
def capacityInvariant (r : Restaurant) (bookings : List Booking) : Prop :=
  ∀ (d : CalDate) (t : Nat), sumActiveGuests bookings r.id d t ≤ r.capacity

/-! ## cancelBooking and getBookingById -/

/-- The response of `cancelBooking`. -/
inductive CancelBookingResponse where
  | cancelledOk (b : Booking)
  | validationError (msg : String)
  | notFoundError (msg : String)
deriving DecidableEq, Repr

/-- Everything observable about one `cancelBooking` call. -/
structure CancelBookingOutcome where
  response : CancelBookingResponse
  bookings : List Booking
  deletedKeys : List String
deriving DecidableEq, Repr

/-- `booking.save()` after `booking.status = 'cancelled'`: the persisted
collection with that booking's status flipped. -/
def setCancelled (bookings : List Booking) (bid : Nat) : List Booking :=
  bookings.map (fun b => if b.id == bid then { b with status := .cancelled }
                         else b)

/-- `cancelBooking` (booking controller): fetch the customer's own booking,
reject already-cancelled and past bookings, otherwise flip the status and
invalidate the user's booking-list and the restaurant/date availability
cache entries. -/
def cancelBooking (bookings : List Booking) (bid cid : Nat) (now : Nat) :
    CancelBookingOutcome :=
  match findUserBookingById bookings bid cid with
  | none =>
    { response := .notFoundError "Booking not found", bookings := bookings,
      deletedKeys := [] }
  | some booking =>
    if booking.status == .cancelled then
      { response := .validationError "Booking is already cancelled",
        bookings := bookings, deletedKeys := [] }
    else if absMinutes booking.date booking.time < now then
      { response := .validationError "Cannot cancel past bookings",
        bookings := bookings, deletedKeys := [] }
    else
      { response := .cancelledOk { booking with status := .cancelled }
        bookings := setCancelled bookings bid
        deletedKeys := ["user-bookings-" ++ toString cid ++ "-all--",
                        "availability-" ++ toString booking.restaurantId ++
                          "-" ++ formatDate booking.date] }

/-- The response of `getBookingById`. -/
inductive GetBookingResponse where
  | ok (b : Booking)
  | notFoundError (msg : String)
deriving DecidableEq, Repr

/-- `getBookingById` (booking controller): the customer's own booking, found
regardless of the restaurant's active flag. -/
def getBookingById (bookings : List Booking) (bid cid : Nat) :
    GetBookingResponse :=
  match findUserBookingById bookings bid cid with
  | none => .notFoundError "Booking not found"
  | some b => .ok b

/-! ## Restaurant controller -/

/-- The application's persistent collections (the restaurant controller's
soft delete writes only the restaurant document; bookings and reviews are
separate collections it never touches). -/
structure AppState where
  restaurants : List Restaurant
  bookings : List Booking
  reviews : List Review
deriving Repr

/-- Modelled from the spec: review lookup by id (review CRUD per the spec's
component design), reading only the review collection. -/
def findReviewById (reviews : List Review) (revId : Nat) : Option Review :=
  reviews.find? (fun rv => rv.id == revId)

/-- The response of `getRestaurantById`; `fromCache` is the `cache: true`
marker added to cached responses. -/
inductive RestaurantDetailResponse where
  | ok (r : Restaurant) (fromCache : Bool)
  | notFound (msg : String)
deriving DecidableEq, Repr

/-- The HTTP status code of a `getRestaurantById` response. -/
def restaurantDetailStatus : RestaurantDetailResponse → Nat
  | .ok _ _ => 200
  | .notFound _ => 404

/-- The detail cache key `restaurant_${id}`. -/
def restaurantCacheKey (rid : Nat) : String := "restaurant_" ++ toString rid

/-- `getRestaurantById` (restaurant controller): serve a cached copy when
present; otherwise look the document up, answering 404 both for a missing
id and for an inactive restaurant, and cache active results. -/
def getRestaurantById (restaurants : List Restaurant)
    (detailCache : Cache Restaurant) (rid : Nat) :
    RestaurantDetailResponse × Cache Restaurant :=
  match cacheGet detailCache (restaurantCacheKey rid) with
  | some cached => (.ok cached true, detailCache)
  | none =>
    match restaurants.find? (fun r => r.id == rid) with
    | none => (.notFound "Restaurant not found", detailCache)
    | some r =>
      if !r.isActive then (.notFound "Restaurant is not available", detailCache)
      else (.ok r false, cacheSet detailCache (restaurantCacheKey rid) r)

/-- The response of `deleteRestaurant`. -/
inductive DeleteRestaurantResponse where
  | ok
  | notFound (msg : String)
  | forbidden (msg : String)
deriving DecidableEq, Repr

/-- `deleteRestaurant` (restaurant controller): ownership-gated soft delete —
`restaurant.isActive = false; await restaurant.save()`.  No document is
removed and no cache entry is invalidated. -/
def deleteRestaurant (s : AppState) (rid ownerId : Nat) :
    DeleteRestaurantResponse × AppState :=
  match s.restaurants.find? (fun r => r.id == rid) with
  | none => (.notFound "Restaurant not found", s)
  | some r =>
    if r.ownerId != ownerId then
      (.forbidden "You don't have permission to delete this restaurant", s)
    else
      (.ok, { s with restaurants := s.restaurants.map (fun x =>
        if x.id == rid then { x with isActive := false } else x) })

/-! ## Restaurant listing (`getRestaurants`) -/

/-- The query parameters of the listing endpoint (after parsing; `radius`
defaults to 10 km, `page` to 1, `limit` to 10). -/
structure RestaurantQuery where
  location : Option String
  cuisine : Option String
  priceRange : Option Nat
  latitude : Option ℚ
  longitude : Option ℚ
  radius : ℚ
  page : Nat
  limit : Nat
deriving DecidableEq, Repr

/-- One element of a listing response; `distance` is present only on the
geospatial path. -/
structure ListingEntry where
  restaurant : Restaurant
  distance : Option ℚ
deriving DecidableEq, Repr

/-- The listing response body (restaurants plus the pagination total);
`fromCache` is the `cache: true` marker. -/
structure ListingResponse where
  restaurants : List ListingEntry
  total : Nat
  fromCache : Bool
deriving DecidableEq, Repr

/-- Sort restaurants ascending by database-reported distance
(`$sort: { distance: 1 }`); `dist` is the center's distance oracle. -/
def sortByDist (dist : Restaurant → ℚ) (l : List Restaurant) :
    List Restaurant :=
  l.insertionSort (fun a b => dist a ≤ dist b)

/-- Sort restaurants ascending by name (`.sort({ name: 1 })`). -/
def sortByName (l : List Restaurant) : List Restaurant :=
  l.insertionSort (fun a b => a.name ≤ b.name)

/-- Modelled from the spec: the document database's `$geoNear` stage (an
out-of-scope collaborator): the documents whose database-measured spherical
distance from the center is at most `maxDistance`, nearest first, with the
distance recorded for later stages (`dist` is that measure). -/
def geoNear (dist : Restaurant → ℚ) (maxDistance : ℚ)
    (docs : List Restaurant) : List Restaurant :=
  sortByDist dist (docs.filter (fun r => dist r ≤ maxDistance))

/-- The text-search filter of `getRestaurants`' find path: active documents,
optionally matched on location substring (case-insensitive regex), cuisine
and price range. -/
def matchesTextFilter (q : RestaurantQuery) (r : Restaurant) : Bool :=
  r.isActive &&
  (match q.location with
   | none => true
   | some loc => decide (loc.toLower.data <:+: r.location.toLower.data)) &&
  (match q.cuisine with
   | none => true
   | some c => r.cuisine == c) &&
  (match q.priceRange with
   | none => true
   | some p => r.priceRange == p)

/-- An optional `$match` stage: applied only when the query parameter is
present. -/
def optFilter {β : Type} (o : Option β) (p : β → Restaurant → Bool)
    (l : List Restaurant) : List Restaurant :=
  match o with
  | none => l
  | some c => l.filter (p c)

/-- The body of `getRestaurants` past the cache check: the geospatial
aggregation pipeline when coordinates are supplied, the regular find with a
name sort otherwise, both paginated. -/
def computeListing (restaurants : List Restaurant) (dist : Restaurant → ℚ)
    (q : RestaurantQuery) : ListingResponse :=
  let skip := (q.page - 1) * q.limit
  match q.latitude, q.longitude with
  | some _, some _ =>
    let afterGeo := geoNear dist (q.radius * 1000) restaurants
    let afterActive := afterGeo.filter (fun r => r.isActive)
    let afterCuisine := optFilter q.cuisine (fun c r => r.cuisine == c)
      afterActive
    let afterPrice := optFilter q.priceRange (fun p r => r.priceRange == p)
      afterCuisine
    let sorted := sortByDist dist afterPrice
    let pageItems := (sorted.drop skip).take q.limit
    { restaurants := pageItems.map (fun r =>
        { restaurant := r, distance := some (dist r) })
      total := afterPrice.length
      fromCache := false }
  | _, _ =>
    let filtered := restaurants.filter (matchesTextFilter q)
    let sorted := sortByName filtered
    let pageItems := (sorted.drop skip).take q.limit
    { restaurants := pageItems.map (fun r =>
        { restaurant := r, distance := none })
      total := filtered.length
      fromCache := false }

/-- The cache gate of `getRestaurants`: only the default browse (no location,
cuisine, price or coordinate filters) is served from and stored to the
cache. -/
def isDefaultBrowse (q : RestaurantQuery) : Bool :=
  q.location.isNone && q.cuisine.isNone && q.priceRange.isNone &&
  q.latitude.isNone && q.longitude.isNone

/-- The listing cache key, `JSON.stringify(req.query)`: for a default browse
only the pagination parameters remain. -/
def listingCacheKey (q : RestaurantQuery) : String :=
  "query-page-" ++ toString q.page ++ "-limit-" ++ toString q.limit

/-- `getRestaurants` (restaurant controller): serve a cached default-browse
response when present, else compute the listing and cache it when the query
is a default browse. -/
def getRestaurants (restaurants : List Restaurant)
    (listCache : Cache ListingResponse) (dist : Restaurant → ℚ)
    (q : RestaurantQuery) : ListingResponse × Cache ListingResponse :=
  if isDefaultBrowse q then
    match cacheGet listCache (listingCacheKey q) with
    | some cached => ({ cached with fromCache := true }, listCache)
    | none =>
      let resp := computeListing restaurants dist q
      (resp, cacheSet listCache (listingCacheKey q) resp)
  else
    (computeListing restaurants dist q, listCache)

/-! ## getNearbyRestaurants -/

/-- One element of the nearby response: the document with the
`distanceField` and the derived `distanceKm`. -/
structure NearbyEntry where
  restaurant : Restaurant
  distance : ℚ
  distanceKm : ℚ
deriving DecidableEq, Repr

/-- The response of `getNearbyRestaurants`. -/
inductive NearbyResponse where
  | ok (restaurants : List NearbyEntry) (total : Nat)
  | badRequest (msg : String)
deriving DecidableEq, Repr

/-- The `$round: [x, 2]` used for `distanceKm` (ties rounded upward). -/
def roundTo2 (x : ℚ) : ℚ := mkRat (Rat.floor (x * 100 + 1/2)) 100

/-- The additional-criteria filter of `getNearbyRestaurants`
(`{ isActive: true }` plus optional cuisine and price range). -/
def nearbyFilter (cuisine : Option String) (priceRange : Option Nat)
    (r : Restaurant) : Bool :=
  r.isActive &&
  (match cuisine with
   | none => true
   | some c => r.cuisine == c) &&
  (match priceRange with
   | none => true
   | some p => r.priceRange == p)

/-- `getNearbyRestaurants` (restaurant controller): validate the
coordinates and radius, then run the `$geoNear` pipeline (filter, distance
bound `radius * 1000` meters, ascending distance sort, pagination); when the
geospatial query fails (`geoFails`), fall back to a plain filtered find with
the placeholder distance 1000 m / 1.0 km. -/
def getNearbyRestaurants (restaurants : List Restaurant)
    (dist : Restaurant → ℚ) (lat lng radiusKm : ℚ) (cuisine : Option String)
    (priceRange : Option Nat) (page limit : Nat) (geoFails : Bool) :
    NearbyResponse :=
  if lat < -90 ∨ lat > 90 then
    .badRequest "Latitude must be between -90 and 90"
  else if lng < -180 ∨ lng > 180 then
    .badRequest "Longitude must be between -180 and 180"
  else if radiusKm ≤ 0 then
    .badRequest "Radius must be greater than 0"
  else
    let skip := (page - 1) * limit
    if geoFails then
      let filtered := restaurants.filter (nearbyFilter cuisine priceRange)
      let rs := (filtered.drop skip).take limit
      .ok (rs.map (fun r =>
        { restaurant := r, distance := 1000, distanceKm := 1 }))
        filtered.length
    else
      let matched := geoNear dist (radiusKm * 1000)
        (restaurants.filter (nearbyFilter cuisine priceRange))
      let sorted := sortByDist dist matched
      let paged := (sorted.drop skip).take limit
      .ok (paged.map (fun r =>
        { restaurant := r, distance := dist r,
          distanceKm := roundTo2 (dist r / 1000) }))
        matched.length

/-! ## Concrete fixtures (used to instantiate the verified statements) -/

/-- A weekly table open Monday 17:00–20:00 and closed the other days. -/
def wHours : WeeklyHours :=
  { monday := some ⟨1020, 1200⟩, tuesday := none, wednesday := none,
    thursday := none, friday := none, saturday := none, sunday := none }

/-- A capacity-20 active restaurant (the spec's worked example). -/
def wRestaurant : Restaurant :=
  { id := 1, name := "Bistro", cuisine := "French", location := "Halifax",
    priceRange := 2, capacity := 20, openingHours := wHours, isActive := true,
    ownerId := 5 }

/-- 2026-10-12, a Monday. -/
def wMonday : CalDate := ⟨2026, 10, 12⟩

/-- 2026-10-13, a Tuesday (a closed day of `wRestaurant`). -/
def wTuesday : CalDate := ⟨2026, 10, 13⟩

/-- A confirmed 10-guest booking at 19:00 on the Monday. -/
def wBooking1 : Booking :=
  { id := 11, customerId := 31, restaurantId := 1, date := wMonday,
    time := 1140, guests := 10, specialRequests := none, status := .confirmed }

/-- A confirmed 8-guest booking at 19:00 on the Monday. -/
def wBooking2 : Booking :=
  { id := 12, customerId := 32, restaurantId := 1, date := wMonday,
    time := 1140, guests := 8, specialRequests := none, status := .confirmed }

/-- The booking collection of the spec's worked example (10 + 8 guests). -/
def wBookings : List Booking := [wBooking1, wBooking2]

/-- The requesting customer. -/
def wUser : User := { id := 7, email := "c@example.com", role := "customer" }

/-- The user collection. -/
def wUsers : List User := [wUser]

/-- The restaurant collection of the worked example. -/
def wRestaurants : List Restaurant := [wRestaurant]

/-- A 3-guest request at 19:00 on the Monday (exceeds the 2 remaining
seats). -/
def wReq3 : CreateBookingRequest :=
  { restaurantId := 1, date := wMonday, time := 1140, guests := 3,
    specialRequests := none }

/-- A 2-guest request at 19:00 on the Monday (fits the remaining seats). -/
def wReq2 : CreateBookingRequest :=
  { restaurantId := 1, date := wMonday, time := 1140, guests := 2,
    specialRequests := none }

/-- A capacity-2 restaurant for the concurrency scenario. -/
def raceRestaurant : Restaurant :=
  { id := 2, name := "Nook", cuisine := "Other", location := "Halifax",
    priceRange := 1, capacity := 2, openingHours := wHours, isActive := true,
    ownerId := 6 }

/-- A 2-guest request for the last two seats of `raceRestaurant`. -/
def raceReq : CreateBookingRequest :=
  { restaurantId := 2, date := wMonday, time := 1140, guests := 2,
    specialRequests := none }

/-- A future-dated confirmed booking to cancel. -/
def cBooking : Booking :=
  { id := 41, customerId := 51, restaurantId := 1, date := wMonday,
    time := 1140, guests := 4, specialRequests := none, status := .confirmed }

/-- The booking collection for the cancellation scenario. -/
def cBookings : List Booking := [cBooking, wBooking1]

/-- An active restaurant that will be soft-deleted while cached. -/
def staleR : Restaurant :=
  { id := 3, name := "Vine", cuisine := "Italian", location := "Halifax",
    priceRange := 3, capacity := 30, openingHours := wHours, isActive := true,
    ownerId := 9 }

/-- The application state before the soft delete. -/
def staleState0 : AppState :=
  { restaurants := [staleR], bookings := [cBooking], reviews := [⟨81, 51, 3, 5, "great"⟩] }

/-- A default browse query (no filters), page 1, limit 10. -/
def staleQuery : RestaurantQuery :=
  { location := none, cuisine := none, priceRange := none, latitude := none,
    longitude := none, radius := 10, page := 1, limit := 10 }

/-- A distance oracle for the cache scenarios (never consulted on the
default-browse path). -/
def staleDist : Restaurant → ℚ := fun _ => 0

/-- Three active restaurants for the nearby-search scenario. -/
def nearR1 : Restaurant :=
  { id := 21, name := "Near", cuisine := "Thai", location := "A",
    priceRange := 1, capacity := 10, openingHours := wHours, isActive := true,
    ownerId := 5 }

/-- Second nearby restaurant, farther out. -/
def nearR2 : Restaurant :=
  { id := 22, name := "Mid", cuisine := "Thai", location := "B",
    priceRange := 1, capacity := 10, openingHours := wHours, isActive := true,
    ownerId := 5 }

/-- Third restaurant, outside the search radius. -/
def nearR3 : Restaurant :=
  { id := 23, name := "Far", cuisine := "Thai", location := "C",
    priceRange := 1, capacity := 10, openingHours := wHours, isActive := true,
    ownerId := 5 }

/-- The restaurant collection for the nearby-search scenario. -/
def nearRestaurants : List Restaurant := [nearR2, nearR1, nearR3]

/-- The database's distance measure for the nearby-search scenario:
500 m, 2000 m and 7000 m from the center. -/
def nearDist : Restaurant → ℚ := fun r =>
  if r.id == 21 then 500 else if r.id == 22 then 2000 else 7000

/-- The nearby response entries expected for a 5 km search over
`nearRestaurants` with `nearDist`: the two in-range restaurants, nearest
first. -/
def nearEntries : List NearbyEntry :=
  [{ restaurant := nearR1, distance := 500, distanceKm := 1/2 },
   { restaurant := nearR2, distance := 2000, distanceKm := 2 }]

/-! ## Lemmas about the guest tallies -/

/-- The creation-side aggregate and the specification's slot sum agree. -/
theorem aggregate_eq_sumActive (bookings : List Booking) (rid : Nat)
    (d : CalDate) (t : Nat) :
    aggregateBookedGuests bookings rid d t = sumActiveGuests bookings rid d t :=
  rfl

/-- The `forEach` accumulation read at one time equals the accumulator's
value plus the guest sum of the bookings at that time. -/
theorem bookingCounts_foldl (bs : List Booking) (acc : Nat → Nat) (t : Nat) :
    (bs.foldl
      (fun acc b => fun t => if t == b.time then acc t + b.guests else acc t)
      acc) t
      = acc t + ((bs.filter (fun b => b.time == t)).map Booking.guests).sum := by
  induction bs generalizing acc with
  | nil => simp
  | cons b bs ih =>
    simp only [List.foldl_cons, List.filter_cons]
    rw [ih]
    by_cases h : b.time = t
    · simp [h, Nat.add_assoc]
    · have h1 : (t == b.time) = false := by
        simpa using Ne.symm h
      have h2 : (b.time == t) = false := by simpa using h
      simp [h1, h2]

/-- The `bookingCounts` object read at one time is the guest sum of the
bookings at that time. -/
theorem bookingCounts_eq (bs : List Booking) (t : Nat) :
    bookingCounts bs t
      = ((bs.filter (fun b => b.time == t)).map Booking.guests).sum := by
  unfold bookingCounts
  rw [bookingCounts_foldl, Nat.zero_add]

/-- Reading `bookingCounts` over the availability query's bookings gives the
specification's per-slot sum. -/
theorem counts_active_eq (bookings : List Booking) (rid : Nat) (d : CalDate)
    (t : Nat) :
    bookingCounts (activeBookingsOn bookings rid d) t
      = sumActiveGuests bookings rid d t := by
  rw [bookingCounts_eq, activeBookingsOn, List.filter_filter, sumActiveGuests]
  congr 1
  congr 1
  apply List.filter_congr
  intro x _
  simp only [matchesSlot]
  cases x.restaurantId == rid <;> cases x.date == d <;> cases x.time == t <;>
    cases countsAgainstCapacity x.status <;> rfl

/-- Unfolding the slot sum over a cons. -/
theorem sumActive_cons (x : Booking) (xs : List Booking) (rid : Nat)
    (d : CalDate) (t : Nat) :
    sumActiveGuests (x :: xs) rid d t =
      (if matchesSlot rid d t x then x.guests else 0) +
        sumActiveGuests xs rid d t := by
  by_cases h : matchesSlot rid d t x <;>
    simp [sumActiveGuests, List.filter_cons, h]

/-- Inserting a booking adds its guests to exactly its own slot's sum. -/
theorem sumActive_insert (bs : List Booking) (b : Booking) (rid : Nat)
    (d : CalDate) (t : Nat) :
    sumActiveGuests (insertBooking bs b) rid d t =
      sumActiveGuests bs rid d t +
        (if matchesSlot rid d t b then b.guests else 0) := by
  by_cases h : matchesSlot rid d t b <;>
    simp [sumActiveGuests, insertBooking, List.filter_append, h]

/-- Unfolding `setCancelled` over a cons. -/
theorem setCancelled_cons (x : Booking) (xs : List Booking) (bid : Nat) :
    setCancelled (x :: xs) bid =
      (if x.id == bid then { x with status := .cancelled } else x) ::
        setCancelled xs bid :=
  rfl

/-- `setCancelled` leaves a collection with no matching id unchanged. -/
theorem setCancelled_eq_self (bs : List Booking) (bid : Nat)
    (h : ∀ x ∈ bs, x.id ≠ bid) : setCancelled bs bid = bs := by
  induction bs with
  | nil => rfl
  | cons x xs ih =>
    rw [setCancelled_cons]
    have hx : (x.id == bid) = false := by
      simpa using h x (List.mem_cons_self x xs)
    rw [if_neg (by simp [hx]), ih (fun y hy => h y (List.mem_cons_of_mem _ hy))]

/-- Cancelling one booking (identified by a nowhere-duplicated id) removes
exactly its contribution from every slot sum. -/
theorem sumActive_setCancelled (bs : List Booking) (b : Booking)
    (hnd : (bs.map Booking.id).Nodup) (hb : b ∈ bs) (rid : Nat) (d : CalDate)
    (t : Nat) :
    sumActiveGuests (setCancelled bs b.id) rid d t +
      (if matchesSlot rid d t b then b.guests else 0) =
      sumActiveGuests bs rid d t := by
  induction bs with
  | nil => cases hb
  | cons x xs ih =>
    rw [List.map_cons, List.nodup_cons] at hnd
    rw [setCancelled_cons]
    rcases List.mem_cons.mp hb with rfl | hbxs
    · rw [if_pos (by simp)]
      have hxs : setCancelled xs b.id = xs := by
        refine setCancelled_eq_self xs b.id (fun y hy he => hnd.1 ?_)
        exact he ▸ List.mem_map_of_mem Booking.id hy
      rw [hxs, sumActive_cons, sumActive_cons]
      have hcancel :
          matchesSlot rid d t { b with status := .cancelled } = false := by
        simp [matchesSlot, countsAgainstCapacity]
      rw [hcancel]
      simp [Nat.add_comm]
    · have hxid : (x.id == b.id) = false := by
        refine beq_eq_false_iff_ne.mpr (fun he => hnd.1 ?_)
        exact he ▸ List.mem_map_of_mem Booking.id hbxs
      rw [if_neg (by simp [hxid]), sumActive_cons, sumActive_cons]
      have hrec := ih hnd.2 hbxs
      omega

/-! ## Lemmas about sorting and the geospatial pipeline -/

/-- The distance sort leaves membership unchanged. -/
theorem mem_sortByDist (dist : Restaurant → ℚ) (l : List Restaurant)
    (x : Restaurant) : x ∈ sortByDist dist l ↔ x ∈ l :=
  List.mem_insertionSort _

/-- The name sort leaves membership unchanged. -/
theorem mem_sortByName (l : List Restaurant) (x : Restaurant) :
    x ∈ sortByName l ↔ x ∈ l :=
  List.mem_insertionSort _

/-- The distance sort produces a list ascending in the distance measure. -/
theorem sortByDist_sorted (dist : Restaurant → ℚ) (l : List Restaurant) :
    List.Sorted (fun a b => dist a ≤ dist b) (sortByDist dist l) := by
  haveI : IsTotal Restaurant (fun a b => dist a ≤ dist b) :=
    ⟨fun a b => le_total _ _⟩
  haveI : IsTrans Restaurant (fun a b => dist a ≤ dist b) :=
    ⟨fun _ _ _ hab hbc => le_trans hab hbc⟩
  exact List.sorted_insertionSort _ _

/-- Membership in the `$geoNear` output means membership in the input within
the distance bound. -/
theorem mem_geoNear (dist : Restaurant → ℚ) (maxDistance : ℚ)
    (docs : List Restaurant) (x : Restaurant)
    (hx : x ∈ geoNear dist maxDistance docs) :
    x ∈ docs ∧ dist x ≤ maxDistance := by
  rw [geoNear, mem_sortByDist, List.mem_filter] at hx
  exact ⟨hx.1, by simpa using hx.2⟩

/-- An optional stage can only shrink the document list. -/
theorem mem_optFilter {β : Type} (o : Option β) (p : β → Restaurant → Bool)
    (l : List Restaurant) (x : Restaurant) (hx : x ∈ optFilter o p l) :
    x ∈ l := by
  cases o with
  | none => exact hx
  | some c => exact (List.mem_filter.mp hx).1

/-- Every restaurant in a computed listing comes from the collection and is
active. -/
theorem computeListing_mem (restaurants : List Restaurant)
    (dist : Restaurant → ℚ) (q : RestaurantQuery) (e : ListingEntry)
    (he : e ∈ (computeListing restaurants dist q).restaurants) :
    e.restaurant ∈ restaurants ∧ e.restaurant.isActive = true := by
  rcases hlat : q.latitude with _ | lat <;>
    rcases hlng : q.longitude with _ | lng <;>
    simp only [computeListing, hlat, hlng, List.mem_map] at he <;>
    obtain ⟨r, hr, rfl⟩ := he
  case none.none | none.some | some.none =>
    have h1 := List.mem_of_mem_drop (List.mem_of_mem_take hr)
    rw [mem_sortByName] at h1
    have h2 := List.mem_filter.mp h1
    refine ⟨h2.1, ?_⟩
    have := h2.2
    simp only [matchesTextFilter, Bool.and_eq_true] at this
    exact this.1.1.1
  case some.some =>
    have h1 := List.mem_of_mem_drop (List.mem_of_mem_take hr)
    rw [mem_sortByDist] at h1
    have h2 := mem_optFilter _ _ _ _ (mem_optFilter _ _ _ _ h1)
    have h3 := List.mem_filter.mp h2
    exact ⟨(mem_geoNear _ _ _ _ h3.1).1, by simpa using h3.2⟩

/-! ## Claim C1 -/

/-- C1: for every restaurant, date and generated time slot, the availability
computation reports `availableCapacity = capacity - sum(guests of
confirmed/pending bookings at that exact restaurant, date and time)` and
`available = (availableCapacity > 0)`. -/
theorem availability_slot_capacity (r : Restaurant) (d : CalDate)
    (bookings : List Booking) (s : Slot)
    (hs : s ∈ (getAvailability r d bookings).availableSlots) :
    s.availableCapacity =
      (r.capacity : Int) - (sumActiveGuests bookings r.id d s.time : Int) ∧
    s.available = decide (s.availableCapacity > 0) := by
  unfold getAvailability at hs
  by_cases hc : isRestaurantClosed (getOpeningHours r (getDayOfWeek d))
  · simp [hc] at hs
  · simp only [hc, Bool.false_eq_true, if_false, List.mem_map] at hs
    obtain ⟨t, _ht, rfl⟩ := hs
    exact ⟨by simp [counts_active_eq], rfl⟩

/-- C1 witness: the spec's worked example (capacity 20, bookings of 10 and 8
guests at 19:00) has the 19:00 slot reporting 2 remaining seats. -/
theorem availability_slot_capacity_witness :
    (⟨1140, true, 2, 20⟩ : Slot) ∈
      (getAvailability wRestaurant wMonday wBookings).availableSlots ∧
    ((⟨1140, true, 2, 20⟩ : Slot).availableCapacity =
      (wRestaurant.capacity : Int) -
        (sumActiveGuests wBookings wRestaurant.id wMonday
          (⟨1140, true, 2, 20⟩ : Slot).time : Int) ∧
     (⟨1140, true, 2, 20⟩ : Slot).available =
      decide ((⟨1140, true, 2, 20⟩ : Slot).availableCapacity > 0)) :=
  ⟨by decide,
   availability_slot_capacity wRestaurant wMonday wBookings _ (by decide)⟩

/-! ## Claim C4 -/

/-- C4: when the resolved weekday has no usable open/close pair, the
availability computation returns an empty slot list with a closure message
naming the weekday, and its result does not depend on the booking
collection (no tally is performed). -/
theorem availability_closed_day (r : Restaurant) (d : CalDate)
    (bookings : List Booking)
    (h : isRestaurantClosed (getOpeningHours r (getDayOfWeek d)) = true) :
    (getAvailability r d bookings).availableSlots = [] ∧
    (getAvailability r d bookings).message =
      some ("Restaurant is closed on " ++ getDayOfWeek d) ∧
    ∀ bookings', getAvailability r d bookings =
      getAvailability r d bookings' := by
  refine ⟨by simp [getAvailability, h], by simp [getAvailability, h], ?_⟩
  intro bookings'
  simp [getAvailability, h]

/-- C4 witness: `wRestaurant` is closed on the Tuesday; the slot list is
empty, the message names the weekday, and the result ignores the booking
collection. -/
theorem availability_closed_day_witness :
    (getAvailability wRestaurant wTuesday wBookings).availableSlots = [] ∧
    (getAvailability wRestaurant wTuesday wBookings).message =
      some "Restaurant is closed on tuesday" ∧
    getAvailability wRestaurant wTuesday wBookings =
      getAvailability wRestaurant wTuesday [] := by
  have h := availability_closed_day wRestaurant wTuesday wBookings (by decide)
  exact ⟨h.1, by rw [h.2.1]; decide, h.2.2 []⟩

/-! ## Claim C2 -/

/-- C2: a booking request whose guests exceed the remaining capacity at its
slot (capacity minus the aggregate confirmed/pending guest sum) fails with a
conflict and inserts nothing; the message is the "no tables" form when
nothing remains and names the exact seat count when some remain. -/
theorem createBooking_capacity_conflict (restaurants : List Restaurant)
    (users : List User) (customerId : Nat) (req : CreateBookingRequest)
    (bookings : List Booking) (newId : Nat) (txOk emailOk : Bool)
    (r : Restaurant) (u : User)
    (hval : validateCreateBookingInput req = none)
    (hr : findRestaurantById restaurants req.restaurantId = some r)
    (hu : findUserById users customerId = some u)
    (hopen : isRestaurantClosed (getOpeningHours r (getDayOfWeek req.date))
      = false)
    (hwithin : isTimeWithinHours req.time
      ((getOpeningHours r (getDayOfWeek req.date)).getD ⟨0, 0⟩).openTime
      ((getOpeningHours r (getDayOfWeek req.date)).getD ⟨0, 0⟩).closeTime
      = true)
    (hcap : (req.guests : Int) > (r.capacity : Int) -
      (aggregateBookedGuests bookings req.restaurantId req.date req.time :
        Int)) :
    (createBooking restaurants users customerId req bookings newId txOk
      emailOk).bookings = bookings ∧
    (createBooking restaurants users customerId req bookings newId txOk
      emailOk).deletedKeys = [] ∧
    (createBooking restaurants users customerId req bookings newId txOk
      emailOk).emailAttempted = false ∧
    ((r.capacity : Int) -
        (aggregateBookedGuests bookings req.restaurantId req.date req.time :
          Int) ≤ 0 →
      (createBooking restaurants users customerId req bookings newId txOk
        emailOk).response = .conflictError ("No tables available at " ++
          formatTime req.time ++ " on " ++ formatDate req.date)) ∧
    (0 < (r.capacity : Int) -
        (aggregateBookedGuests bookings req.restaurantId req.date req.time :
          Int) →
      (createBooking restaurants users customerId req bookings newId txOk
        emailOk).response = .conflictError ("Only " ++
          toString ((r.capacity : Int) -
            (aggregateBookedGuests bookings req.restaurantId req.date
              req.time : Int)) ++ " seats available at " ++
          formatTime req.time ++ " on " ++ formatDate req.date)) := by
  by_cases hle : (r.capacity : Int) -
      (aggregateBookedGuests bookings req.restaurantId req.date req.time :
        Int) ≤ 0
  · unfold createBooking
    simp only [hval, hr, hu, hopen, Bool.false_eq_true, if_false, hwithin,
      Bool.not_true, if_pos hcap, if_pos hle]
    exact ⟨trivial, trivial, trivial, fun _ => trivial,
      fun hpos => absurd hle (not_le.mpr hpos)⟩
  · unfold createBooking
    simp only [hval, hr, hu, hopen, Bool.false_eq_true, if_false, hwithin,
      Bool.not_true, if_pos hcap, if_neg hle]
    exact ⟨trivial, trivial, trivial, fun h0 => absurd h0 hle, fun _ => trivial⟩

/-- C2 witness: the spec's worked example — capacity 20, confirmed bookings
of 10 and 8 guests at 19:00, a request for 3 guests — is rejected with
"Only 2 seats available" and inserts nothing. -/
theorem createBooking_capacity_conflict_witness :
    (createBooking wRestaurants wUsers 7 wReq3 wBookings 99 true
      true).bookings = wBookings ∧
    (createBooking wRestaurants wUsers 7 wReq3 wBookings 99 true
      true).response =
      .conflictError "Only 2 seats available at 19:00 on 2026-10-12" := by
  have h := createBooking_capacity_conflict wRestaurants wUsers 7 wReq3
    wBookings 99 true true wRestaurant wUser (by decide) (by decide)
    (by decide) (by decide) (by decide) (by decide)
  refine ⟨h.1, ?_⟩
  rw [h.2.2.2.2 (by decide)]
  decide

/-! ## Claim C9 -/

/-- C9: every booking the public creation operation stores has status
`confirmed`; no execution of `createBooking` adds a `pending` booking. -/
theorem createBooking_only_confirmed (restaurants : List Restaurant)
    (users : List User) (customerId : Nat) (req : CreateBookingRequest)
    (bookings : List Booking) (newId : Nat) (txOk emailOk : Bool) :
    (∀ b, (createBooking restaurants users customerId req bookings newId txOk
        emailOk).response = .created b → b.status = .confirmed) ∧
    ∀ x ∈ (createBooking restaurants users customerId req bookings newId txOk
        emailOk).bookings, x ∈ bookings ∨ x.status = .confirmed := by
  constructor
  · intro b hb
    unfold createBooking at hb
    simp only [] at hb
    repeat' split at hb
    all_goals simp only [mkBookingDoc] at hb
    all_goals simp at hb
    all_goals subst hb
    all_goals rfl
  · intro x hx
    unfold createBooking at hx
    simp only [] at hx
    repeat' split at hx
    all_goals try exact Or.inl hx
    rename_i newBookings heq
    unfold txBlock at heq
    split at heq
    · rw [Except.ok.injEq] at heq
      subst heq
      rw [insertBooking, List.mem_append] at hx
      rcases hx with hx | hx
      · exact Or.inl hx
      · exact Or.inr (by rw [List.mem_singleton.mp hx]; rfl)
    · cases heq

/-- C9 witness: a successful run stores the constructed booking, whose
status is `confirmed`. -/
theorem createBooking_only_confirmed_witness :
    (createBooking wRestaurants wUsers 7 wReq2 wBookings 99 true
      true).response = .created (mkBookingDoc 7 wReq2 99) ∧
    (mkBookingDoc 7 wReq2 99).status = .confirmed ∧
    (mkBookingDoc 7 wReq2 99 ∈ wBookings ∨
      (mkBookingDoc 7 wReq2 99).status = .confirmed) :=
  ⟨by decide,
   (createBooking_only_confirmed wRestaurants wUsers 7 wReq2 wBookings 99 true
      true).1 (mkBookingDoc 7 wReq2 99) (by decide),
   (createBooking_only_confirmed wRestaurants wUsers 7 wReq2 wBookings 99 true
      true).2 (mkBookingDoc 7 wReq2 99) (by decide)⟩

/-! ## Claim C8 -/

/-- C8: the outcome of `createBooking` (response, stored bookings,
invalidations) does not depend on whether the confirmation email succeeds,
and the email is attempted exactly when the booking commits (after the
transaction, never on a failure path). -/
theorem createBooking_email_isolated (restaurants : List Restaurant)
    (users : List User) (customerId : Nat) (req : CreateBookingRequest)
    (bookings : List Booking) (newId : Nat) (txOk emailOk : Bool) :
    createBooking restaurants users customerId req bookings newId txOk emailOk
      = createBooking restaurants users customerId req bookings newId txOk
        true ∧
    ((createBooking restaurants users customerId req bookings newId txOk
        emailOk).emailAttempted = true ↔
      isCreatedResponse (createBooking restaurants users customerId req
        bookings newId txOk emailOk).response = true) := by
  constructor
  · rfl
  · unfold createBooking
    simp only []
    repeat' split
    all_goals simp [isCreatedResponse]

/-! ## Claim C3 -/

/-- C3 counterexample: because the capacity check runs before the transaction
(only the insert is inside it), two concurrent 2-guest requests for
`raceRestaurant`'s last 2 seats can both pass the check against the same
pre-state and both commit: both succeed — not "exactly one" — and the slot's
committed guest total reaches 4 > capacity 2, violating the invariant. -/
theorem createBooking_race_both_succeed :
    (interleavedRun raceRestaurant 61 62 raceReq raceReq [] 101 102).1
      = true ∧
    (interleavedRun raceRestaurant 61 62 raceReq raceReq [] 101 102).2.1
      = true ∧
    sumActiveGuests
      (interleavedRun raceRestaurant 61 62 raceReq raceReq [] 101 102).2.2
      raceRestaurant.id wMonday 1140 = 4 ∧
    raceRestaurant.capacity = 2 ∧
    ¬ capacityInvariant raceRestaurant
      (interleavedRun raceRestaurant 61 62 raceReq raceReq [] 101 102).2.2 :=
  ⟨by decide, by decide, by decide, by decide,
   fun hinv => absurd (hinv wMonday 1140) (by decide)⟩

/-- C3 amended: only the insert executes inside the transaction — the
capacity check precedes it — so concurrency is not excluded by the handler;
a `createBooking` run without interleaving does preserve the capacity
invariant. -/
theorem createBooking_sequential_preserves_invariant
    (restaurants : List Restaurant) (users : List User) (customerId : Nat)
    (req : CreateBookingRequest) (bookings : List Booking) (newId : Nat)
    (txOk emailOk : Bool) (r : Restaurant)
    (hr : findRestaurantById restaurants req.restaurantId = some r)
    (hinv : capacityInvariant r bookings) :
    capacityInvariant r (createBooking restaurants users customerId req
      bookings newId txOk emailOk).bookings := by
  intro d t
  unfold createBooking
  simp only [hr]
  repeat' split
  all_goals try exact hinv d t
  rename_i hno _sc newBookings heq
  unfold txBlock at heq
  split at heq
  · rw [Except.ok.injEq] at heq
    subst heq
    rw [sumActive_insert]
    by_cases hm :
      matchesSlot r.id d t (mkBookingDoc customerId req newId) = true
    · rw [if_pos hm]
      simp only [matchesSlot, mkBookingDoc, Bool.and_eq_true, beq_iff_eq,
        countsAgainstCapacity] at hm
      obtain ⟨⟨⟨h1, h2⟩, h3⟩, -⟩ := hm
      subst h2
      subst h3
      rw [aggregate_eq_sumActive] at hno
      rw [← h1]
      simp only [mkBookingDoc]
      omega
    · rw [if_neg hm]
      simpa using hinv d t
  · cases heq

/-- C3 amended witness: a lone 2-guest booking into the empty collection of
the capacity-2 restaurant preserves the invariant. -/
theorem createBooking_sequential_preserves_invariant_witness :
    capacityInvariant raceRestaurant
      (createBooking [raceRestaurant] wUsers 7 raceReq [] 103 true
        true).bookings :=
  createBooking_sequential_preserves_invariant [raceRestaurant] wUsers 7
    raceReq [] 103 true true raceRestaurant (by decide)
    (fun _d _t => by simp [sumActiveGuests])

/-! ## Claim C5 -/

/-- Deleting a key removes its cache entry. -/
theorem cacheGet_cacheDel_self {α : Type} (c : Cache α) (k : String) :
    cacheGet (cacheDel c k) k = none := by
  induction c with
  | nil => rfl
  | cons p c ih =>
    rw [cacheDel, List.filter_cons]
    by_cases h : p.1 == k
    · rw [if_neg (by simpa using h)]
      exact ih
    · rw [if_pos (by simpa using h)]
      have hstep : cacheGet (p :: List.filter (fun q => q.1 != k) c) k
          = cacheGet (List.filter (fun q => q.1 != k) c) k := by
        unfold cacheGet
        rw [List.find?_cons_of_neg _ (by simpa using h)]
      rw [hstep]
      exact ih

/-- Cache deletions commute. -/
theorem cacheDel_comm {α : Type} (c : Cache α) (k1 k2 : String) :
    cacheDel (cacheDel c k1) k2 = cacheDel (cacheDel c k2) k1 := by
  unfold cacheDel
  rw [List.filter_filter, List.filter_filter]
  exact List.filter_congr (fun x _ => Bool.and_comm _ _)

/-- C5: cancellation acts only on the requesting customer's own booking;
it rejects already-cancelled and past bookings without touching the store;
on success it flips the booking's status to `cancelled`, invalidates the
user's booking-list key and the restaurant/date availability key, and the
booking's guests drop out of every slot sum used by availability. -/
theorem cancelBooking_spec (bookings : List Booking) (bid cid now : Nat)
    (b : Booking)
    (hfind : findUserBookingById bookings bid cid = some b)
    (hnd : (bookings.map Booking.id).Nodup) :
    b.customerId = cid ∧
    (b.status = .cancelled →
      (cancelBooking bookings bid cid now).response =
        .validationError "Booking is already cancelled" ∧
      (cancelBooking bookings bid cid now).bookings = bookings) ∧
    (b.status ≠ .cancelled → absMinutes b.date b.time < now →
      (cancelBooking bookings bid cid now).response =
        .validationError "Cannot cancel past bookings" ∧
      (cancelBooking bookings bid cid now).bookings = bookings) ∧
    (b.status ≠ .cancelled → ¬ absMinutes b.date b.time < now →
      (cancelBooking bookings bid cid now).response =
        .cancelledOk { b with status := .cancelled } ∧
      (cancelBooking bookings bid cid now).deletedKeys =
        ["user-bookings-" ++ toString cid ++ "-all--",
         "availability-" ++ toString b.restaurantId ++ "-" ++
           formatDate b.date] ∧
      (∀ c : Cache String,
        cacheGet (cacheDel (cacheDel c
            ("user-bookings-" ++ toString cid ++ "-all--"))
            ("availability-" ++ toString b.restaurantId ++ "-" ++
              formatDate b.date))
          ("user-bookings-" ++ toString cid ++ "-all--") = none ∧
        cacheGet (cacheDel (cacheDel c
            ("user-bookings-" ++ toString cid ++ "-all--"))
            ("availability-" ++ toString b.restaurantId ++ "-" ++
              formatDate b.date))
          ("availability-" ++ toString b.restaurantId ++ "-" ++
            formatDate b.date) = none) ∧
      (∀ x ∈ (cancelBooking bookings bid cid now).bookings,
        x.id = bid → x.status = .cancelled) ∧
      (∀ (rid : Nat) (d : CalDate) (t : Nat),
        sumActiveGuests (cancelBooking bookings bid cid now).bookings rid d t
          + (if matchesSlot rid d t b then b.guests else 0) =
          sumActiveGuests bookings rid d t)) := by
  have hcomp := List.find?_some hfind
  simp only [Bool.and_eq_true, beq_iff_eq] at hcomp
  refine ⟨hcomp.2, ?_, ?_, ?_⟩
  · intro hc
    unfold cancelBooking
    simp only [hfind]
    rw [if_pos (by simp [hc])]
    exact ⟨rfl, rfl⟩
  · intro hc hpast
    unfold cancelBooking
    simp only [hfind]
    rw [if_neg (by simp [hc]), if_pos hpast]
    exact ⟨rfl, rfl⟩
  · intro hc hfut
    unfold cancelBooking
    simp only [hfind]
    rw [if_neg (by simp [hc]), if_neg hfut]
    refine ⟨rfl, rfl, ?_, ?_, ?_⟩
    · intro c
      exact ⟨by rw [cacheDel_comm]; exact cacheGet_cacheDel_self _ _,
             cacheGet_cacheDel_self _ _⟩
    · intro x hx hxid
      simp only [setCancelled, List.mem_map] at hx
      obtain ⟨y, _hy, rfl⟩ := hx
      by_cases hyb : y.id == bid
      · simp [hyb]
      · rw [if_neg (by simpa using hyb)] at hxid ⊢
        exact absurd hxid (by simpa using hyb)
    · intro rid d t
      rw [← hcomp.1]
      exact sumActive_setCancelled bookings b hnd
        (List.mem_of_find?_eq_some hfind) rid d t

/-- C5 witness: cancelling the future-dated booking 41 as customer 51 flips
its status, invalidates both cache keys, and removes its 4 guests from the
19:00 slot sum. -/
theorem cancelBooking_spec_witness :
    cBooking.customerId = 51 ∧
    (cancelBooking cBookings 41 51 0).response =
      .cancelledOk { cBooking with status := .cancelled } ∧
    (cancelBooking cBookings 41 51 0).deletedKeys =
      ["user-bookings-51-all--", "availability-1-2026-10-12"] ∧
    sumActiveGuests (cancelBooking cBookings 41 51 0).bookings 1 wMonday 1140
      + (if matchesSlot 1 wMonday 1140 cBooking then cBooking.guests else 0)
      = sumActiveGuests cBookings 1 wMonday 1140 := by
  have h := cancelBooking_spec cBookings 41 51 0 cBooking (by decide)
    (by decide)
  have hs := h.2.2.2 (by decide) (by decide)
  refine ⟨h.1, hs.1, ?_, hs.2.2.2.2 1 wMonday 1140⟩
  rw [hs.2.1]
  decide

/-! ## Claim C7 -/

/-- Every restaurant in a successful nearby response comes from the
collection and passed the active/cuisine/price filter. -/
theorem getNearbyRestaurants_mem (restaurants : List Restaurant)
    (dist : Restaurant → ℚ) (lat lng radiusKm : ℚ) (cuisine : Option String)
    (priceRange : Option Nat) (page limit : Nat) (geoFails : Bool)
    (entries : List NearbyEntry) (total : Nat)
    (hok : getNearbyRestaurants restaurants dist lat lng radiusKm cuisine
      priceRange page limit geoFails = .ok entries total)
    (e : NearbyEntry) (he : e ∈ entries) :
    e.restaurant ∈ restaurants ∧ e.restaurant.isActive = true := by
  unfold getNearbyRestaurants at hok
  simp only [] at hok
  repeat' split at hok
  any_goals simp at hok
  all_goals obtain ⟨hE, -⟩ := hok
  all_goals subst hE
  all_goals have h1 := List.mem_of_mem_drop (List.mem_of_mem_take he)
  all_goals rw [List.mem_map] at h1
  all_goals obtain ⟨r, hr, rfl⟩ := h1
  · have h2 := List.mem_filter.mp hr
    refine ⟨h2.1, ?_⟩
    have := h2.2
    simp only [nearbyFilter, Bool.and_eq_true] at this
    exact this.1.1
  · rw [mem_sortByDist] at hr
    have h2 := (mem_geoNear _ _ _ _ hr).1
    have h3 := List.mem_filter.mp h2
    refine ⟨h3.1, ?_⟩
    have := h3.2
    simp only [nearbyFilter, Bool.and_eq_true] at this
    exact this.1.1

/-- C7: on a valid nearby search every returned restaurant's
database-measured distance is at most `radius * 1000` meters and the
entries are ascending in distance; when the geospatial query fails the
fallback lists filtered restaurants with the fixed placeholder distance
(1000 m / 1.0 km) instead. -/
theorem nearby_within_radius_sorted (restaurants : List Restaurant)
    (dist : Restaurant → ℚ) (lat lng radiusKm : ℚ) (cuisine : Option String)
    (priceRange : Option Nat) (page limit : Nat) (geoFails : Bool)
    (entries : List NearbyEntry) (total : Nat)
    (hok : getNearbyRestaurants restaurants dist lat lng radiusKm cuisine
      priceRange page limit geoFails = .ok entries total) :
    (geoFails = false →
      (∀ e ∈ entries, e.distance = dist e.restaurant ∧
        e.distance ≤ radiusKm * 1000) ∧
      List.Sorted (fun a b : NearbyEntry => a.distance ≤ b.distance)
        entries) ∧
    (geoFails = true →
      ∀ e ∈ entries, e.distance = 1000 ∧ e.distanceKm = 1) := by
  unfold getNearbyRestaurants at hok
  simp only [] at hok
  repeat' split at hok
  any_goals simp at hok
  all_goals obtain ⟨hE, -⟩ := hok
  all_goals subst hE
  · rename_i hgeo
    constructor
    · intro hgf
      rw [hgf] at hgeo
      cases hgeo
    · intro _ e he
      have h1 := List.mem_of_mem_drop (List.mem_of_mem_take he)
      rw [List.mem_map] at h1
      obtain ⟨r, _hr, rfl⟩ := h1
      exact ⟨rfl, rfl⟩
  · rename_i hgeo
    constructor
    · intro _
      constructor
      · intro e he
        have h1 := List.mem_of_mem_drop (List.mem_of_mem_take he)
        rw [List.mem_map] at h1
        obtain ⟨r, hr, rfl⟩ := h1
        refine ⟨rfl, ?_⟩
        rw [mem_sortByDist] at hr
        exact (mem_geoNear _ _ _ _ hr).2
      · refine List.Pairwise.sublist
          ((List.take_sublist _ _).trans (List.drop_sublist _ _)) ?_
        refine List.Pairwise.map _ (fun a b h => ?_) (sortByDist_sorted dist _)
        exact h
    · intro hgf
      exact absurd hgf hgeo

/-- C7 witness: a 5 km search over three restaurants at 500 m, 2000 m and
7000 m returns exactly the two in-range ones, nearest first, each within
5000 m. -/
theorem nearby_within_radius_sorted_witness :
    (∀ e ∈ nearEntries, e.distance = nearDist e.restaurant ∧
      e.distance ≤ (5 : ℚ) * 1000) ∧
    List.Sorted (fun a b : NearbyEntry => a.distance ≤ b.distance)
      nearEntries :=
  (nearby_within_radius_sorted nearRestaurants nearDist 44 (-63) 5 none none
    1 10 false nearEntries 2 (by with_unfolding_all rfl)).1 rfl

/-! ## Claim C6 -/

/-- C6 counterexample: `getRestaurants` serves a default browse from its
cache and `deleteRestaurant` invalidates nothing, so after caching a listing
and then soft-deleting restaurant 3, the next listing still contains the
soft-deleted restaurant — the claim's "every restaurant with
`isActive = false` is excluded from the public restaurant listing" fails on
this reachable state. -/
theorem restaurant_listing_stale_cache :
    (deleteRestaurant staleState0 3 9).1 = .ok ∧
    (∀ x ∈ (deleteRestaurant staleState0 3 9).2.restaurants,
      x.id = 3 → x.isActive = false) ∧
    (∃ e ∈ (getRestaurants (deleteRestaurant staleState0 3 9).2.restaurants
        (getRestaurants staleState0.restaurants Cache.empty staleDist
          staleQuery).2 staleDist staleQuery).1.restaurants,
      e.restaurant.id = 3 ∧ e.restaurant.isActive = true) := by
  decide

/-- C6 amended: a successful `deleteRestaurant` only flips the document's
`isActive` flag (no document is removed and nothing else changes); every
freshly computed public listing and every nearby result then excludes the
restaurant; its historical bookings and reviews are untouched and remain
retrievable by id.  A listing cached before the soft delete may still
include the restaurant until the entry expires, because `deleteRestaurant`
invalidates no cache entry. -/
theorem deleteRestaurant_soft_delete (s : AppState) (rid ownerId : Nat)
    (r : Restaurant)
    (hr : s.restaurants.find? (fun x => x.id == rid) = some r)
    (hown : r.ownerId = ownerId) :
    (deleteRestaurant s rid ownerId).1 = .ok ∧
    (deleteRestaurant s rid ownerId).2.restaurants.map Restaurant.id =
      s.restaurants.map Restaurant.id ∧
    (∀ x ∈ (deleteRestaurant s rid ownerId).2.restaurants,
      x.id = rid → x.isActive = false) ∧
    (∀ x ∈ (deleteRestaurant s rid ownerId).2.restaurants,
      x.id ≠ rid → x ∈ s.restaurants) ∧
    (∀ (dist : Restaurant → ℚ) (q : RestaurantQuery),
      ∀ e ∈ (computeListing (deleteRestaurant s rid ownerId).2.restaurants
          dist q).restaurants,
        e.restaurant.isActive = true ∧ e.restaurant.id ≠ rid) ∧
    (∀ (dist : Restaurant → ℚ) (lat lng radiusKm : ℚ)
        (cuisine : Option String) (priceRange : Option Nat)
        (page limit : Nat) (geoFails : Bool) (entries : List NearbyEntry)
        (total : Nat),
      getNearbyRestaurants (deleteRestaurant s rid ownerId).2.restaurants
          dist lat lng radiusKm cuisine priceRange page limit geoFails =
          .ok entries total →
      ∀ e ∈ entries, e.restaurant.isActive = true ∧ e.restaurant.id ≠ rid) ∧
    (deleteRestaurant s rid ownerId).2.bookings = s.bookings ∧
    (deleteRestaurant s rid ownerId).2.reviews = s.reviews ∧
    (∀ bid cid, getBookingById (deleteRestaurant s rid ownerId).2.bookings
        bid cid = getBookingById s.bookings bid cid) ∧
    (∀ revId, findReviewById (deleteRestaurant s rid ownerId).2.reviews revId
        = findReviewById s.reviews revId) := by
  have hdel : deleteRestaurant s rid ownerId =
      (.ok, { s with restaurants := s.restaurants.map (fun x =>
        if x.id == rid then { x with isActive := false } else x) }) := by
    unfold deleteRestaurant
    rw [hr]
    simp only []
    rw [if_neg (by simp [hown])]
  have hkey : ∀ x ∈ s.restaurants.map (fun x =>
      if x.id == rid then { x with isActive := false } else x),
      x.id = rid → x.isActive = false := by
    intro x hx hxid
    rw [List.mem_map] at hx
    obtain ⟨y, _hy, rfl⟩ := hx
    by_cases hyb : y.id == rid
    · simp [hyb]
    · rw [if_neg (by simpa using hyb)] at hxid ⊢
      exact absurd hxid (by simpa using hyb)
  rw [hdel]
  refine ⟨rfl, ?_, hkey, ?_, ?_, ?_, rfl, rfl, fun _ _ => rfl, fun _ => rfl⟩
  · rw [List.map_map]
    refine List.map_congr_left ?_
    intro x _
    by_cases h : x.id == rid <;> simp [Function.comp, h]
  · intro x hx hxne
    rw [List.mem_map] at hx
    obtain ⟨y, hy, rfl⟩ := hx
    by_cases hyb : y.id == rid
    · rw [if_pos hyb] at hxne
      exact absurd (by simpa using hyb) hxne
    · rw [if_neg hyb] at hxne ⊢
      exact hy
  · intro dist q e he
    obtain ⟨hmem, hact⟩ := computeListing_mem _ _ _ _ he
    refine ⟨hact, fun hid => ?_⟩
    have hf := hkey _ hmem hid
    rw [hf] at hact
    simp at hact
  · intro dist lat lng radiusKm cuisine priceRange page limit geoFails
      entries total hok e he
    obtain ⟨hmem, hact⟩ := getNearbyRestaurants_mem _ _ _ _ _ _ _ _ _ _
      _ _ hok e he
    refine ⟨hact, fun hid => ?_⟩
    have hf := hkey _ hmem hid
    rw [hf] at hact
    simp at hact

/-- C6 amended witness: soft-deleting restaurant 3 succeeds, keeps its
document (same id list), and leaves the booking and review collections
untouched. -/
theorem deleteRestaurant_soft_delete_witness :
    (deleteRestaurant staleState0 3 9).1 = .ok ∧
    (deleteRestaurant staleState0 3 9).2.restaurants.map Restaurant.id =
      [3] ∧
    (deleteRestaurant staleState0 3 9).2.bookings = staleState0.bookings ∧
    (deleteRestaurant staleState0 3 9).2.reviews = staleState0.reviews := by
  have h := deleteRestaurant_soft_delete staleState0 3 9 staleR (by decide)
    (by decide)
  refine ⟨h.1, ?_, h.2.2.2.2.2.2.1, h.2.2.2.2.2.2.2.1⟩
  rw [h.2.1]
  decide

/-! ## Claim C10 -/

/-- C10 counterexample: `getRestaurantById` consults its cache before the
active check and `deleteRestaurant` invalidates nothing, so fetching a
restaurant (which caches it), soft-deleting it, and fetching again returns
the stale 200 response — not the claimed 404. -/
theorem restaurant_detail_stale_cache :
    (deleteRestaurant staleState0 3 9).1 = .ok ∧
    (∀ x ∈ (deleteRestaurant staleState0 3 9).2.restaurants,
      x.id = 3 → x.isActive = false) ∧
    restaurantDetailStatus (getRestaurantById
      (deleteRestaurant staleState0 3 9).2.restaurants
      (getRestaurantById staleState0.restaurants Cache.empty 3).2 3).1
      = 200 := by
  decide

/-- C10 amended: on a cache miss for the id, fetching an inactive restaurant
by id returns 404, the same status code as fetching a nonexistent id; a
detail response cached while the restaurant was active may still be served
after the soft delete, since `deleteRestaurant` does not invalidate it. -/
theorem getRestaurantById_inactive_404 (restaurants : List Restaurant)
    (cache : Cache Restaurant) (rid : Nat)
    (hc : cacheGet cache (restaurantCacheKey rid) = none) :
    (∀ r, restaurants.find? (fun x => x.id == rid) = some r →
      r.isActive = false →
      restaurantDetailStatus (getRestaurantById restaurants cache rid).1
        = 404) ∧
    (restaurants.find? (fun x => x.id == rid) = none →
      restaurantDetailStatus (getRestaurantById restaurants cache rid).1
        = 404) := by
  constructor
  · intro r hr hact
    unfold getRestaurantById
    rw [hc, hr]
    simp only []
    rw [if_pos (by simp [hact])]
    rfl
  · intro hn
    unfold getRestaurantById
    rw [hc, hn]
    rfl

/-- C10 amended witness: an inactive restaurant and a missing id both
produce status 404 on a cache miss. -/
theorem getRestaurantById_inactive_404_witness :
    restaurantDetailStatus (getRestaurantById
      [{ staleR with isActive := false }] Cache.empty 3).1 = 404 ∧
    restaurantDetailStatus (getRestaurantById [] Cache.empty 3).1 = 404 :=
  ⟨(getRestaurantById_inactive_404 [{ staleR with isActive := false }]
      Cache.empty 3 (by decide)).1 { staleR with isActive := false }
      (by decide) (by decide),
   (getRestaurantById_inactive_404 [] Cache.empty 3 (by decide)).2
      (by decide)⟩

end DineBook
